import Mathlib

/-! NTCP transport server (`src/core/router/transports/ntcp/server.cc`).

A shallow embedding of `kovri::core::NTCPServer`.

* The server object is a record of its data members.  The two `std::map`
  members are finite partial functions (`find`, `operator[]=`, `erase`,
  `clear` are the only map operations the source uses).
* Every member function is a function from the state before the call to the
  state after it, together with the list of calls it makes on its
  collaborators (sessions, acceptors, the event loop, the routing directory,
  the router context, the log), in program order.
* A completion handler passed to an asynchronous operation is a function of
  its own: the operation is recorded as an event, and the handler is applied
  later by whoever delivers the completion.
* `std::uint32_t` values are natural numbers reduced modulo `2 ^ 32`.
* Declarations that live in headers outside this file (the ban duration
  `NTCPTimeoutLength::BanExpiration`, the clock `GetSecondsSinceEpoch`,
  `context.SupportsV6()`, the endpoint reported by a socket) are parameters.
* `LOG(...)` statements are recorded as events.  The endpoint queries
  `remote_endpoint()` and `local_endpoint()` without an `error_code`
  argument throw `boost::system::system_error` when they fail, also inside a
  `LOG(...)` statement: their status is a parameter, and an exception that
  leaves a member function is recorded as the last event of its trace, with
  the state at the point of the throw.  Setting up an acceptor in `Start` is
  taken to succeed.
-/

namespace Kovri

/-! ## Machine integers -/

/-- Conversion of a natural number to `std::uint32_t`. -/
def u32 (n : Nat) : Nat := n % 4294967296

/-- Subtraction `a - b` of two `std::uint32_t` values. -/
def sub32 (a b : Nat) : Nat := (a + 4294967296 - b) % 4294967296

/-! ## Value types -/

/-- Router identity hash, `kovri::core::IdentHash` (the registry key). -/
abbrev IdentHash := Nat

/-- Network address, `boost::asio::ip::address`: its family and its bits. -/
structure Address where
  v6 : Bool
  bits : Nat
  deriving DecidableEq, Repr

/-- Endpoint `boost::asio::ip::tcp::endpoint`: address and port. -/
structure Endpoint where
  address : Address
  port : Nat
  deriving DecidableEq, Repr

/-- Completion status `boost::system::error_code`.  `success` is the value for
which `!ecode` holds; `operation_aborted` is
`boost::asio::error::operation_aborted`. -/
inductive ErrorCode where
  | success
  | operation_aborted
  | other (code : Nat)
  deriving DecidableEq, Repr

/-- Session object as seen through a non-null `std::shared_ptr<NTCPSession>`:
`ptr` is the identity of the object, `identHash` is
`GetRemoteIdentity().GetIdentHash()`, `remoteEndpoint` is
`GetRemoteEndpoint()`. -/
structure NTCPSession where
  ptr : Nat
  identHash : IdentHash
  remoteEndpoint : Endpoint
  deriving DecidableEq, Repr

/-- Outcome of an endpoint query on a socket (`remote_endpoint()` or
`local_endpoint()`): its status and, when the status is `success`, the
endpoint it returns. -/
structure EndpointQuery where
  status : ErrorCode
  value : Endpoint
  deriving DecidableEq, Repr

/-- Role argument of `async_handshake`. -/
inductive Role where
  | server
  | client
  deriving DecidableEq, Repr

/-- Severity of a `LOG` statement. -/
inductive Severity where
  | debug
  | warning
  | error
  deriving DecidableEq, Repr

/-- Text of the `LOG` statements of `server.cc`, with the values they print. -/
inductive LogMsg where
  | starting
  | handlingAccepted (v6 : Bool)
  | connectedFrom (v6 : Bool) (ep : Endpoint)
  | bannedFor (a : Address) (seconds : Nat)
  | remoteEndpointFailed (ec : ErrorCode)
  | handshakeFailed (ec : ErrorCode)
  | acceptFailed (ec : ErrorCode)
  | connecting (a : Address) (port : Nat)
  | connectFailed (ec : ErrorCode)
  | connectedTo
  | addingSession
  | removingSession
  | findingSession
  | hasBeenBanned (seconds : Nat)
  | stopping
  deriving DecidableEq, Repr

/-- Closure handed to `m_Service.post`. -/
inductive WorkItem where
  | addNTCPSession (conn : NTCPSession)
  deriving DecidableEq, Repr

/-- Calls the server makes on its collaborators. -/
inductive Event where
  | log (sev : Severity) (msg : LogMsg)
  | asyncAccept (v6 : Bool) (conn : Nat)
  | asyncHandshake (conn : Nat) (role : Role)
  | asyncConnect (conn : Nat) (ep : Endpoint)
  | serverLogin (conn : Nat)
  | startClientSession (conn : Nat)
  | terminate (conn : Nat)
  | setUnreachable (ident : IdentHash) (unreachable : Bool)
  | updateNTCPV6Address (a : Address)
  | post (w : WorkItem)
  | throws (ec : ErrorCode)
  deriving DecidableEq, Repr

/-! ## Server state -/

/-- Acceptor `boost::asio::ip::tcp::acceptor`: the sessions for which an
`async_accept` has been issued on it and has not completed yet. -/
structure Acceptor where
  outstanding : List Nat
  deriving DecidableEq, Repr

/-- Data members of `NTCPServer`.  `allocated` counts the `NTCPSession`
objects the server has created with `std::make_shared`; the next one gets
that number as its identity. -/
structure NTCPServer where
  m_IsRunning : Bool
  m_NTCPAcceptor : Option Acceptor
  m_NTCPV6Acceptor : Option Acceptor
  m_NTCPSessions : IdentHash → Option NTCPSession
  m_BanList : Address → Option Nat
  allocated : Nat

/-- State left by the constructor `NTCPServer::NTCPServer`. -/
def NTCPServer.new : NTCPServer :=
  { m_IsRunning := false
    m_NTCPAcceptor := none
    m_NTCPV6Acceptor := none
    m_NTCPSessions := fun _ => none
    m_BanList := fun _ => none
    allocated := 0 }

/-- Map assignment `m[k] = v`. -/
def mapInsert {K V : Type} [DecidableEq K] (m : K → Option V) (k : K) (v : V) :
    K → Option V :=
  fun x => if x = k then some v else m x

/-- Map removal `m.erase(k)`. -/
def mapErase {K V : Type} [DecidableEq K] (m : K → Option V) (k : K) :
    K → Option V :=
  fun x => if x = k then none else m x

/-! ## Member functions -/

/-- Member `NTCPServer::Start` (lines 63-98). -/
def Start (supportsV6 : Bool) (s : NTCPServer) : NTCPServer × List Event :=
  if !s.m_IsRunning then
    let conn := s.allocated
    let s1 : NTCPServer :=
      { s with
        m_IsRunning := true
        m_NTCPAcceptor := some ⟨[conn]⟩
        allocated := s.allocated + 1 }
    let t1 := [Event.log .debug .starting, Event.asyncAccept false conn]
    if supportsV6 then
      let conn6 := s1.allocated
      ({ s1 with
          m_NTCPV6Acceptor := some ⟨[conn6]⟩
          allocated := s1.allocated + 1 },
        t1 ++ [Event.asyncAccept true conn6])
    else (s1, t1)
  else (s, [])

/-- Member `NTCPServer::HandleAccept` (lines 100-151).  The result is `none`
when the handler dereferences a null `m_NTCPAcceptor`. -/
def HandleAccept (conn : NTCPSession) (ecode : ErrorCode) (s : NTCPServer) :
    Option (NTCPServer × List Event) :=
  let t1 :=
    if ecode = .success then
      [Event.log .debug (.handlingAccepted false),
        Event.asyncHandshake conn.ptr .server]
    else if ecode ≠ .operation_aborted then
      [Event.log .error (.acceptFailed ecode)]
    else []
  if ecode ≠ .operation_aborted then
    match s.m_NTCPAcceptor with
    | none => none
    | some a =>
      let new_conn := s.allocated
      some ({ s with
              m_NTCPAcceptor := some ⟨a.outstanding ++ [new_conn]⟩
              allocated := s.allocated + 1 },
            t1 ++ [Event.asyncAccept false new_conn])
  else some (s, t1)

/-- Handshake completion of `HandleAccept` (the lambda of lines 107-135).
`ec` is the handshake status, `rec` and `ep` are the status and the value
produced by `remote_endpoint(ec)`, `now` is what `GetSecondsSinceEpoch()`
returns. -/
def HandleAcceptHandshake (conn : NTCPSession) (ec rec : ErrorCode)
    (ep : Endpoint) (now : Nat) (s : NTCPServer) : NTCPServer × List Event :=
  if ec = .success then
    if rec = .success then
      let t0 := [Event.log .debug (.connectedFrom false ep)]
      let r : NTCPServer × Option NTCPSession × List Event :=
        match s.m_BanList ep.address with
        | some second =>
          let ts := u32 now
          if ts < second then
            (s, none, [Event.log .debug (.bannedFor ep.address (sub32 second ts))])
          else
            ({ s with m_BanList := mapErase s.m_BanList ep.address }, some conn, [])
        | none => (s, some conn, [])
      match r.2.1 with
      | some c => (r.1, t0 ++ r.2.2 ++ [Event.serverLogin c.ptr])
      | none => (r.1, t0 ++ r.2.2)
    else (s, [Event.log .error (.remoteEndpointFailed rec)])
  else (s, [Event.log .warning (.handshakeFailed ec), Event.terminate conn.ptr])

/-- Member `NTCPServer::HandleAcceptV6` (lines 153-204).  The result is
`none` when the handler dereferences a null `m_NTCPV6Acceptor`. -/
def HandleAcceptV6 (conn : NTCPSession) (ecode : ErrorCode) (s : NTCPServer) :
    Option (NTCPServer × List Event) :=
  let t1 :=
    if ecode = .success then
      [Event.log .debug (.handlingAccepted true),
        Event.asyncHandshake conn.ptr .server]
    else if ecode ≠ .operation_aborted then
      [Event.log .error (.acceptFailed ecode)]
    else []
  if ecode ≠ .operation_aborted then
    match s.m_NTCPV6Acceptor with
    | none => none
    | some a =>
      let new_conn := s.allocated
      some ({ s with
              m_NTCPV6Acceptor := some ⟨a.outstanding ++ [new_conn]⟩
              allocated := s.allocated + 1 },
            t1 ++ [Event.asyncAccept true new_conn])
  else some (s, t1)

/-- Handshake completion of `HandleAcceptV6` (the lambda of lines 160-188). -/
def HandleAcceptV6Handshake (conn : NTCPSession) (ec rec : ErrorCode)
    (ep : Endpoint) (now : Nat) (s : NTCPServer) : NTCPServer × List Event :=
  if ec = .success then
    if rec = .success then
      let t0 := [Event.log .debug (.connectedFrom true ep)]
      let r : NTCPServer × Option NTCPSession × List Event :=
        match s.m_BanList ep.address with
        | some second =>
          let ts := u32 now
          if ts < second then
            (s, none, [Event.log .debug (.bannedFor ep.address (sub32 second ts))])
          else
            ({ s with m_BanList := mapErase s.m_BanList ep.address }, some conn, [])
        | none => (s, some conn, [])
      match r.2.1 with
      | some c => (r.1, t0 ++ r.2.2 ++ [Event.serverLogin c.ptr])
      | none => (r.1, t0 ++ r.2.2)
    else (s, [Event.log .error (.remoteEndpointFailed rec)])
  else (s, [Event.log .warning (.handshakeFailed ec), Event.terminate conn.ptr])

/-- Member `NTCPServer::Connect` (lines 206-223).  The `std::size_t` port is
logged as it is and converted to the `unsigned short` port of the
endpoint. -/
def Connect (address : Address) (port : Nat) (conn : NTCPSession)
    (s : NTCPServer) : NTCPServer × List Event :=
  (s, [Event.log .debug (.connecting address port),
        Event.asyncConnect conn.ptr ⟨address, port % 65536⟩])

/-- Member `NTCPServer::HandleConnect` (lines 225-260).  `remote` is the
outcome of `remote_endpoint()` in the `LOG` statement of line 241, `local1`
and `local2` are the outcomes of the two `local_endpoint()` calls of lines
242 and 243; each of the three throws when its status is not `success`. -/
def HandleConnect (conn : NTCPSession) (ecode : ErrorCode)
    (remote local1 local2 : EndpointQuery) (s : NTCPServer) :
    NTCPServer × List Event :=
  if ecode ≠ .success then
    (s, [Event.log .warning (.connectFailed ecode)]
          ++ (if ecode ≠ .operation_aborted then
                [Event.setUnreachable conn.identHash true]
              else [])
          ++ [Event.terminate conn.ptr])
  else if remote.status ≠ .success then
    (s, [Event.throws remote.status])
  else if local1.status ≠ .success then
    (s, [Event.log .debug .connectedTo, Event.throws local1.status])
  else if local1.value.address.v6 then
    if local2.status ≠ .success then
      (s, [Event.log .debug .connectedTo, Event.throws local2.status])
    else
      (s, [Event.log .debug .connectedTo,
            Event.updateNTCPV6Address local2.value.address,
            Event.asyncHandshake conn.ptr .client])
  else
    (s, [Event.log .debug .connectedTo,
          Event.asyncHandshake conn.ptr .client])

/-- Handshake completion of `HandleConnect` (the lambda of lines 246-259). -/
def HandleConnectHandshake (conn : NTCPSession) (ec : ErrorCode)
    (s : NTCPServer) : NTCPServer × List Event :=
  if ec = .success then
    (s, [Event.startClientSession conn.ptr,
          Event.post (.addNTCPSession conn)])
  else
    (s, [Event.log .warning (.handshakeFailed ec), Event.terminate conn.ptr])

/-- Member `NTCPServer::AddNTCPSession` (lines 262-271); `none` is a null
pointer.  `rec` is the status of
`session->GetSocket().lowest_layer().remote_endpoint()` in the `LOG`
statement of line 266, which comes before the insertion of line 269: when it
is not `success` the call throws and nothing is inserted (a statement the
logger does not evaluate counts as `success`). -/
def AddNTCPSession (session : Option NTCPSession) (rec : ErrorCode)
    (s : NTCPServer) : NTCPServer × List Event :=
  match session with
  | some x =>
    if rec ≠ .success then (s, [Event.throws rec])
    else
      ({ s with m_NTCPSessions := mapInsert s.m_NTCPSessions x.identHash x },
        [Event.log .debug .addingSession])
  | none => (s, [])

/-- Member `NTCPServer::RemoveNTCPSession` (lines 273-282); `none` is a null
pointer. -/
def RemoveNTCPSession (session : Option NTCPSession) (s : NTCPServer) :
    NTCPServer × List Event :=
  match session with
  | some x =>
    ({ s with m_NTCPSessions := mapErase s.m_NTCPSessions x.identHash },
      [Event.log .debug .removingSession])
  | none => (s, [])

/-- Member `NTCPServer::FindNTCPSession` (lines 284-292); `none` is the null
pointer it returns when the identity is not mapped. -/
def FindNTCPSession (ident : IdentHash) (s : NTCPServer) :
    Option NTCPSession × List Event :=
  (s.m_NTCPSessions ident, [Event.log .debug .findingSession])

/-- Member `NTCPServer::Ban` (lines 294-302).  `banExpiration` is
`GetType(NTCPTimeoutLength::BanExpiration)`, `now` is what
`GetSecondsSinceEpoch()` returns.  The sum is formed from the
`std::uint32_t` local `ts` and stored as the `std::uint32_t` expiry of the
ban list. -/
def Ban (banExpiration : Nat) (session : NTCPSession) (now : Nat)
    (s : NTCPServer) : NTCPServer × List Event :=
  let ts := u32 now
  ({ s with
      m_BanList :=
        mapInsert s.m_BanList session.remoteEndpoint.address
          (u32 (ts + banExpiration)) },
    [Event.log .warning (.hasBeenBanned banExpiration)])

/-- Member `NTCPServer::Stop` (lines 304-312). -/
def Stop (s : NTCPServer) : NTCPServer × List Event :=
  let s1 : NTCPServer := { s with m_NTCPSessions := fun _ => none }
  if s1.m_IsRunning then
    ({ s1 with
        m_IsRunning := false
        m_NTCPAcceptor := none
        m_NTCPV6Acceptor := none },
      [Event.log .debug .stopping])
  else (s1, [Event.log .debug .stopping])

/-- Execution of a work item taken from the event loop's queue; `rec` is the
status of the session's `remote_endpoint()` at that moment. -/
def WorkItem.run : WorkItem → ErrorCode → NTCPServer → NTCPServer × List Event
  | .addNTCPSession conn, rec, s => AddNTCPSession (some conn) rec s

/-! ## Classification of events -/

/-- Recognises `async_handshake` calls. -/
def Event.isHandshake : Event → Bool
  | .asyncHandshake _ _ => true
  | _ => false

/-- Recognises `ServerLogin` calls. -/
def Event.isServerLogin : Event → Bool
  | .serverLogin _ => true
  | _ => false

/-- Recognises `StartClientSession` calls. -/
def Event.isStartClientSession : Event → Bool
  | .startClientSession _ => true
  | _ => false

/-- Recognises `Terminate` calls. -/
def Event.isTerminate : Event → Bool
  | .terminate _ => true
  | _ => false

/-- Recognises `netdb.SetUnreachable` calls. -/
def Event.isSetUnreachable : Event → Bool
  | .setUnreachable _ _ => true
  | _ => false

/-- Recognises `m_Service.post` calls. -/
def Event.isPost : Event → Bool
  | .post _ => true
  | _ => false

/-- Acceptor of an address family. -/
def acceptorOf (v6 : Bool) (s : NTCPServer) : Option Acceptor :=
  if v6 then s.m_NTCPV6Acceptor else s.m_NTCPAcceptor

/-- Accept handler of an address family. -/
def handleAcceptOf (v6 : Bool) (conn : NTCPSession) (ecode : ErrorCode)
    (s : NTCPServer) : Option (NTCPServer × List Event) :=
  if v6 then HandleAcceptV6 conn ecode s else HandleAccept conn ecode s

/-- Handshake completion of the accept handler of an address family. -/
def handleAcceptHandshakeOf (v6 : Bool) (conn : NTCPSession)
    (ec rec : ErrorCode) (ep : Endpoint) (now : Nat) (s : NTCPServer) :
    NTCPServer × List Event :=
  if v6 then HandleAcceptV6Handshake conn ec rec ep now s
  else HandleAcceptHandshake conn ec rec ep now s

/-- The accept issued for session `conn` on the acceptor of a family is no
longer outstanding (the event loop does this when it delivers the
completion). -/
def retireAccept (v6 : Bool) (conn : Nat) (s : NTCPServer) : NTCPServer :=
  if v6 then
    { s with
      m_NTCPV6Acceptor :=
        s.m_NTCPV6Acceptor.map (fun a => ⟨a.outstanding.erase conn⟩) }
  else
    { s with
      m_NTCPAcceptor :=
        s.m_NTCPAcceptor.map (fun a => ⟨a.outstanding.erase conn⟩) }

/-- Things that can happen to the server: calls of its public member
functions and deliveries of completions by the event loop. -/
inductive Op where
  | start (supportsV6 : Bool)
  | stop
  | acceptDone (v6 : Bool) (conn : NTCPSession) (ecode : ErrorCode)
  | acceptHandshakeDone (v6 : Bool) (conn : NTCPSession) (ec rec : ErrorCode)
      (ep : Endpoint) (now : Nat)
  | connect (address : Address) (port : Nat) (conn : NTCPSession)
  | connectDone (conn : NTCPSession) (ecode : ErrorCode)
      (remote local1 local2 : EndpointQuery)
  | connectHandshakeDone (conn : NTCPSession) (ec : ErrorCode)
  | work (w : WorkItem) (rec : ErrorCode)
  | addSession (session : Option NTCPSession) (rec : ErrorCode)
  | removeSession (session : Option NTCPSession)
  | findSession (ident : IdentHash)
  | ban (banExpiration : Nat) (session : NTCPSession) (now : Nat)

/-- One transition; `none` when the code dereferences a null acceptor. -/
def step : Op → NTCPServer → Option (NTCPServer × List Event)
  | .start v6, s => some (Start v6 s)
  | .stop, s => some (Stop s)
  | .acceptDone v6 conn ecode, s =>
    handleAcceptOf v6 conn ecode (retireAccept v6 conn.ptr s)
  | .acceptHandshakeDone v6 conn ec rec ep now, s =>
    some (handleAcceptHandshakeOf v6 conn ec rec ep now s)
  | .connect a p conn, s => some (Connect a p conn s)
  | .connectDone conn ecode remote l1 l2, s =>
    some (HandleConnect conn ecode remote l1 l2 s)
  | .connectHandshakeDone conn ec, s => some (HandleConnectHandshake conn ec s)
  | .work w rec, s => some (w.run rec s)
  | .addSession x rec, s => some (AddNTCPSession x rec s)
  | .removeSession x, s => some (RemoveNTCPSession x s)
  | .findSession i, s => some (s, (FindNTCPSession i s).2)
  | .ban d x now, s => some (Ban d x now s)

/-- State after a sequence of transitions. -/
def run : List Op → NTCPServer → Option NTCPServer
  | [], s => some s
  | op :: ops, s =>
    match step op s with
    | some r => run ops r.1
    | none => none

/-- States the server can be in: those a sequence of transitions leads to
from the state the constructor leaves. -/
def Reachable (s : NTCPServer) : Prop :=
  ∃ ops, run ops NTCPServer.new = some s

/-- Invariant: a server that is not running has no acceptors. -/
def StoppedHasNoAcceptors (s : NTCPServer) : Prop :=
  s.m_IsRunning = false → s.m_NTCPAcceptor = none ∧ s.m_NTCPV6Acceptor = none

/-- Transitions other than `Start`, `Stop` and accept completions. -/
def Op.isPlain : Op → Bool
  | .start _ => false
  | .stop => false
  | .acceptDone _ _ _ => false
  | _ => true

/-- Sample session with object identity 1 registered under identity hash 7. -/
def sampleS1 : NTCPSession := ⟨1, 7, ⟨⟨false, 167772161⟩, 12345⟩⟩

/-- Sample session with object identity 2, a different object with the same
identity hash 7. -/
def sampleS2 : NTCPSession := ⟨2, 7, ⟨⟨false, 167772162⟩, 23456⟩⟩

/-- Registry after `add(S1)`, `add(S2)` from the empty registry. -/
def sampleRegistry : NTCPServer :=
  (AddNTCPSession (some sampleS2) .success
    (AddNTCPSession (some sampleS1) .success NTCPServer.new).1).1

/-- Sample endpoint a connection from the address of `sampleS1` arrives
from. -/
def sampleEp : Endpoint := ⟨⟨false, 167772161⟩, 40000⟩

/-- Sample endpoint query that succeeds with `sampleEp`. -/
def sampleQuery : EndpointQuery := ⟨.success, sampleEp⟩

/-- Sample state: the address of `sampleEp` is banned until 1600. -/
def sampleBanned : NTCPServer := (Ban 600 sampleS1 1000 NTCPServer.new).1

/-- Sample state: started with IPv6, `sampleS1` registered and banned. -/
def sampleRunning : NTCPServer :=
  (Ban 600 sampleS1 1000
    (AddNTCPSession (some sampleS1) .success
      (Start true NTCPServer.new).1).1).1

theorem retireAccept_frame (v6 : Bool) (c : Nat) (s : NTCPServer) :
    (retireAccept v6 c s).m_NTCPSessions = s.m_NTCPSessions
      ∧ (retireAccept v6 c s).m_BanList = s.m_BanList
      ∧ (retireAccept v6 c s).m_IsRunning = s.m_IsRunning
      ∧ (retireAccept v6 c s).allocated = s.allocated := by
  cases v6 <;> simp [retireAccept]

theorem HandleAccept_frame (conn : NTCPSession) (ecode : ErrorCode)
    (s : NTCPServer) (r : NTCPServer × List Event)
    (h : HandleAccept conn ecode s = some r) :
    r.1.m_NTCPSessions = s.m_NTCPSessions ∧ r.1.m_BanList = s.m_BanList
      ∧ r.1.m_IsRunning = s.m_IsRunning
      ∧ r.1.m_NTCPV6Acceptor = s.m_NTCPV6Acceptor := by
  unfold HandleAccept at h
  by_cases ha : ecode = .operation_aborted
  · simp only [ha, ne_eq, not_true_eq_false, if_false, Option.some.injEq] at h
    subst h
    simp
  · cases hacc : s.m_NTCPAcceptor with
    | none => simp [ha, hacc] at h
    | some a =>
      simp only [ne_eq, ha, not_false_eq_true, if_true, hacc,
        Option.some.injEq] at h
      subst h
      simp

theorem HandleAcceptV6_frame (conn : NTCPSession) (ecode : ErrorCode)
    (s : NTCPServer) (r : NTCPServer × List Event)
    (h : HandleAcceptV6 conn ecode s = some r) :
    r.1.m_NTCPSessions = s.m_NTCPSessions ∧ r.1.m_BanList = s.m_BanList
      ∧ r.1.m_IsRunning = s.m_IsRunning
      ∧ r.1.m_NTCPAcceptor = s.m_NTCPAcceptor := by
  unfold HandleAcceptV6 at h
  by_cases ha : ecode = .operation_aborted
  · simp only [ha, ne_eq, not_true_eq_false, if_false, Option.some.injEq] at h
    subst h
    simp
  · cases hacc : s.m_NTCPV6Acceptor with
    | none => simp [ha, hacc] at h
    | some a =>
      simp only [ne_eq, ha, not_false_eq_true, if_true, hacc,
        Option.some.injEq] at h
      subst h
      simp

theorem handleAcceptOf_frame (v6 : Bool) (conn : NTCPSession)
    (ecode : ErrorCode) (s : NTCPServer) (r : NTCPServer × List Event)
    (h : handleAcceptOf v6 conn ecode s = some r) :
    r.1.m_NTCPSessions = s.m_NTCPSessions ∧ r.1.m_BanList = s.m_BanList
      ∧ r.1.m_IsRunning = s.m_IsRunning := by
  cases v6
  · have := HandleAccept_frame conn ecode s r (by simpa [handleAcceptOf] using h)
    exact ⟨this.1, this.2.1, this.2.2.1⟩
  · have := HandleAcceptV6_frame conn ecode s r (by simpa [handleAcceptOf] using h)
    exact ⟨this.1, this.2.1, this.2.2.1⟩

theorem HandleAcceptHandshake_frame (conn : NTCPSession) (ec rec : ErrorCode)
    (ep : Endpoint) (now : Nat) (s : NTCPServer) :
    (HandleAcceptHandshake conn ec rec ep now s).1.m_NTCPSessions
        = s.m_NTCPSessions
      ∧ (HandleAcceptHandshake conn ec rec ep now s).1.m_IsRunning
          = s.m_IsRunning
      ∧ (HandleAcceptHandshake conn ec rec ep now s).1.m_NTCPAcceptor
          = s.m_NTCPAcceptor
      ∧ (HandleAcceptHandshake conn ec rec ep now s).1.m_NTCPV6Acceptor
          = s.m_NTCPV6Acceptor
      ∧ (HandleAcceptHandshake conn ec rec ep now s).1.allocated = s.allocated := by
  unfold HandleAcceptHandshake
  by_cases h1 : ec = .success
  · by_cases h2 : rec = .success
    · cases hb : s.m_BanList ep.address with
      | none => simp [h1, h2, hb]
      | some e =>
        by_cases h3 : u32 now < e <;> simp [h1, h2, hb, h3]
    · simp [h1, h2]
  · simp [h1]

theorem HandleAcceptV6Handshake_frame (conn : NTCPSession)
    (ec rec : ErrorCode) (ep : Endpoint) (now : Nat) (s : NTCPServer) :
    (HandleAcceptV6Handshake conn ec rec ep now s).1.m_NTCPSessions
        = s.m_NTCPSessions
      ∧ (HandleAcceptV6Handshake conn ec rec ep now s).1.m_IsRunning
          = s.m_IsRunning
      ∧ (HandleAcceptV6Handshake conn ec rec ep now s).1.m_NTCPAcceptor
          = s.m_NTCPAcceptor
      ∧ (HandleAcceptV6Handshake conn ec rec ep now s).1.m_NTCPV6Acceptor
          = s.m_NTCPV6Acceptor
      ∧ (HandleAcceptV6Handshake conn ec rec ep now s).1.allocated = s.allocated := by
  unfold HandleAcceptV6Handshake
  by_cases h1 : ec = .success
  · by_cases h2 : rec = .success
    · cases hb : s.m_BanList ep.address with
      | none => simp [h1, h2, hb]
      | some e =>
        by_cases h3 : u32 now < e <;> simp [h1, h2, hb, h3]
    · simp [h1, h2]
  · simp [h1]

theorem handleAcceptHandshakeOf_frame (v6 : Bool) (conn : NTCPSession)
    (ec rec : ErrorCode) (ep : Endpoint) (now : Nat) (s : NTCPServer) :
    (handleAcceptHandshakeOf v6 conn ec rec ep now s).1.m_NTCPSessions
        = s.m_NTCPSessions
      ∧ (handleAcceptHandshakeOf v6 conn ec rec ep now s).1.m_IsRunning
          = s.m_IsRunning
      ∧ (handleAcceptHandshakeOf v6 conn ec rec ep now s).1.m_NTCPAcceptor
          = s.m_NTCPAcceptor
      ∧ (handleAcceptHandshakeOf v6 conn ec rec ep now s).1.m_NTCPV6Acceptor
          = s.m_NTCPV6Acceptor
      ∧ (handleAcceptHandshakeOf v6 conn ec rec ep now s).1.allocated = s.allocated := by
  cases v6
  · simpa [handleAcceptHandshakeOf] using
      HandleAcceptHandshake_frame conn ec rec ep now s
  · simpa [handleAcceptHandshakeOf] using
      HandleAcceptV6Handshake_frame conn ec rec ep now s

theorem HandleConnect_state (conn : NTCPSession) (ecode : ErrorCode)
    (remote local1 local2 : EndpointQuery) (s : NTCPServer) :
    (HandleConnect conn ecode remote local1 local2 s).1 = s := by
  unfold HandleConnect
  repeat (first | rfl | split)

theorem AddNTCPSession_frame (x : Option NTCPSession) (rec : ErrorCode)
    (s : NTCPServer) :
    (AddNTCPSession x rec s).1.m_IsRunning = s.m_IsRunning
      ∧ (AddNTCPSession x rec s).1.m_NTCPAcceptor = s.m_NTCPAcceptor
      ∧ (AddNTCPSession x rec s).1.m_NTCPV6Acceptor = s.m_NTCPV6Acceptor
      ∧ (AddNTCPSession x rec s).1.allocated = s.allocated
      ∧ (AddNTCPSession x rec s).1.m_BanList = s.m_BanList := by
  cases x with
  | none => simp [AddNTCPSession]
  | some x =>
    by_cases h : rec = .success <;> simp [AddNTCPSession, h]

theorem u32_of_lt (n : Nat) (h : n < 4294967296) : u32 n = n :=
  Nat.mod_eq_of_lt h

theorem sub32_of_le (a b : Nat) (hba : b ≤ a) (ha : a < 4294967296) :
    sub32 a b = a - b := by
  unfold sub32
  omega

theorem HandleAcceptHandshake_banned (conn : NTCPSession) (ep : Endpoint)
    (now e : Nat) (s : NTCPServer) (hb : s.m_BanList ep.address = some e)
    (hlt : u32 now < e) :
    HandleAcceptHandshake conn .success .success ep now s
      = (s, [Event.log .debug (.connectedFrom false ep),
              Event.log .debug (.bannedFor ep.address (sub32 e (u32 now)))]) := by
  simp [HandleAcceptHandshake, hb, hlt]

theorem HandleAcceptHandshake_expired (conn : NTCPSession) (ep : Endpoint)
    (now e : Nat) (s : NTCPServer) (hb : s.m_BanList ep.address = some e)
    (hge : ¬ u32 now < e) :
    HandleAcceptHandshake conn .success .success ep now s
      = ({ s with m_BanList := mapErase s.m_BanList ep.address },
          [Event.log .debug (.connectedFrom false ep),
            Event.serverLogin conn.ptr]) := by
  simp [HandleAcceptHandshake, hb, hge]

theorem HandleAcceptHandshake_absent (conn : NTCPSession) (ep : Endpoint)
    (now : Nat) (s : NTCPServer) (hb : s.m_BanList ep.address = none) :
    HandleAcceptHandshake conn .success .success ep now s
      = (s, [Event.log .debug (.connectedFrom false ep),
              Event.serverLogin conn.ptr]) := by
  simp [HandleAcceptHandshake, hb]

theorem HandleAcceptV6Handshake_banned (conn : NTCPSession) (ep : Endpoint)
    (now e : Nat) (s : NTCPServer) (hb : s.m_BanList ep.address = some e)
    (hlt : u32 now < e) :
    HandleAcceptV6Handshake conn .success .success ep now s
      = (s, [Event.log .debug (.connectedFrom true ep),
              Event.log .debug (.bannedFor ep.address (sub32 e (u32 now)))]) := by
  simp [HandleAcceptV6Handshake, hb, hlt]

theorem HandleAcceptV6Handshake_expired (conn : NTCPSession) (ep : Endpoint)
    (now e : Nat) (s : NTCPServer) (hb : s.m_BanList ep.address = some e)
    (hge : ¬ u32 now < e) :
    HandleAcceptV6Handshake conn .success .success ep now s
      = ({ s with m_BanList := mapErase s.m_BanList ep.address },
          [Event.log .debug (.connectedFrom true ep),
            Event.serverLogin conn.ptr]) := by
  simp [HandleAcceptV6Handshake, hb, hge]

theorem HandleAcceptV6Handshake_absent (conn : NTCPSession) (ep : Endpoint)
    (now : Nat) (s : NTCPServer) (hb : s.m_BanList ep.address = none) :
    HandleAcceptV6Handshake conn .success .success ep now s
      = (s, [Event.log .debug (.connectedFrom true ep),
              Event.serverLogin conn.ptr]) := by
  simp [HandleAcceptV6Handshake, hb]

theorem acceptHandshake_active_ban (conn : NTCPSession) (ep : Endpoint)
    (now expiry : Nat) (s : NTCPServer)
    (hentry : s.m_BanList ep.address = some expiry) (hlt : now < expiry)
    (h32 : expiry < 4294967296) :
    ∀ h ∈ [HandleAcceptHandshake, HandleAcceptV6Handshake],
      (h conn .success .success ep now s).2.filter Event.isServerLogin = []
        ∧ Event.log .debug (.bannedFor ep.address (expiry - now))
            ∈ (h conn .success .success ep now s).2
        ∧ (h conn .success .success ep now s).1.m_BanList ep.address
            = some expiry
        ∧ (h conn .success .success ep now s).1.m_BanList = s.m_BanList
        ∧ (h conn .success .success ep now s).1.m_NTCPSessions
            = s.m_NTCPSessions := by
  have hu : u32 now = now := u32_of_lt now (by omega)
  have hlt' : u32 now < expiry := by rw [hu]; exact hlt
  have hsub : sub32 expiry (u32 now) = expiry - now := by
    rw [hu]; exact sub32_of_le expiry now (by omega) h32
  intro h hh
  simp only [List.mem_cons, List.mem_singleton, List.not_mem_nil,
    or_false] at hh
  rcases hh with rfl | rfl
  · rw [HandleAcceptHandshake_banned conn ep now expiry s hentry hlt', hsub]
    simp [Event.isServerLogin, hentry]
  · rw [HandleAcceptV6Handshake_banned conn ep now expiry s hentry hlt', hsub]
    simp [Event.isServerLogin, hentry]

theorem acceptHandshake_expired_or_absent (conn : NTCPSession) (ep : Endpoint)
    (now : Nat) (s : NTCPServer) (hnow : now < 4294967296) :
    ∀ h ∈ [HandleAcceptHandshake, HandleAcceptV6Handshake],
      (∀ expiry, s.m_BanList ep.address = some expiry → expiry ≤ now →
        (h conn .success .success ep now s).2.filter Event.isServerLogin
            = [Event.serverLogin conn.ptr]
          ∧ (h conn .success .success ep now s).1.m_BanList ep.address = none
          ∧ ∀ b, b ≠ ep.address →
              (h conn .success .success ep now s).1.m_BanList b
                = s.m_BanList b)
      ∧ (s.m_BanList ep.address = none →
          (h conn .success .success ep now s).2.filter Event.isServerLogin
              = [Event.serverLogin conn.ptr]
            ∧ (h conn .success .success ep now s).1.m_BanList
                = s.m_BanList) := by
  have hu : u32 now = now := u32_of_lt now hnow
  intro h hh
  simp only [List.mem_cons, List.mem_singleton, List.not_mem_nil,
    or_false] at hh
  rcases hh with rfl | rfl
  · refine ⟨fun expiry hentry hge => ?_, fun hnone => ?_⟩
    · rw [HandleAcceptHandshake_expired conn ep now expiry s hentry
        (by rw [hu]; omega)]
      refine ⟨by simp [Event.isServerLogin], by simp [mapErase], ?_⟩
      intro b hb
      simp [mapErase, hb]
    · rw [HandleAcceptHandshake_absent conn ep now s hnone]
      simp [Event.isServerLogin]
  · refine ⟨fun expiry hentry hge => ?_, fun hnone => ?_⟩
    · rw [HandleAcceptV6Handshake_expired conn ep now expiry s hentry
        (by rw [hu]; omega)]
      refine ⟨by simp [Event.isServerLogin], by simp [mapErase], ?_⟩
      intro b hb
      simp [mapErase, hb]
    · rw [HandleAcceptV6Handshake_absent conn ep now s hnone]
      simp [Event.isServerLogin]

theorem retireAccept_of_none (v6 : Bool) (c : Nat) (s : NTCPServer)
    (h : acceptorOf v6 s = none) : retireAccept v6 c s = s := by
  obtain ⟨r, a4, a6, m, b, n⟩ := s
  cases v6
  · simp only [acceptorOf, Bool.false_eq_true, if_false] at h
    subst h
    simp [retireAccept]
  · simp only [acceptorOf, if_true] at h
    subst h
    simp [retireAccept]

theorem HandleAccept_aborted (conn : NTCPSession) (s : NTCPServer) :
    HandleAccept conn .operation_aborted s = some (s, []) := by
  simp [HandleAccept]

theorem HandleAcceptV6_aborted (conn : NTCPSession) (s : NTCPServer) :
    HandleAcceptV6 conn .operation_aborted s = some (s, []) := by
  simp [HandleAcceptV6]

theorem step_plain_frame (op : Op) (s : NTCPServer)
    (r : NTCPServer × List Event) (hstep : step op s = some r)
    (hop : op.isPlain = true) :
    r.1.m_IsRunning = s.m_IsRunning ∧ r.1.m_NTCPAcceptor = s.m_NTCPAcceptor
      ∧ r.1.m_NTCPV6Acceptor = s.m_NTCPV6Acceptor
      ∧ r.1.allocated = s.allocated := by
  cases op with
  | start v6 => simp [Op.isPlain] at hop
  | stop => simp [Op.isPlain] at hop
  | acceptDone v6 conn ecode => simp [Op.isPlain] at hop
  | acceptHandshakeDone v6 conn ec rec ep now =>
    simp only [step, Option.some.injEq] at hstep
    subst hstep
    have := handleAcceptHandshakeOf_frame v6 conn ec rec ep now s
    exact ⟨this.2.1, this.2.2.1, this.2.2.2.1, this.2.2.2.2⟩
  | connect a p conn =>
    simp only [step, Option.some.injEq] at hstep
    subst hstep
    simp [Connect]
  | connectDone conn ecode remote l1 l2 =>
    simp only [step, Option.some.injEq] at hstep
    subst hstep
    rw [HandleConnect_state]
    exact ⟨rfl, rfl, rfl, rfl⟩
  | connectHandshakeDone conn ec =>
    simp only [step, Option.some.injEq] at hstep
    subst hstep
    unfold HandleConnectHandshake
    split <;> simp
  | work w rec =>
    simp only [step, Option.some.injEq] at hstep
    subst hstep
    cases w with
    | addNTCPSession conn =>
      have := AddNTCPSession_frame (some conn) rec s
      exact ⟨this.1, this.2.1, this.2.2.1, this.2.2.2.1⟩
  | addSession x rec =>
    simp only [step, Option.some.injEq] at hstep
    subst hstep
    have := AddNTCPSession_frame x rec s
    exact ⟨this.1, this.2.1, this.2.2.1, this.2.2.2.1⟩
  | removeSession x =>
    simp only [step, Option.some.injEq] at hstep
    subst hstep
    cases x <;> simp [RemoveNTCPSession]
  | findSession i =>
    simp only [step, Option.some.injEq] at hstep
    subst hstep
    simp
  | ban d x now =>
    simp only [step, Option.some.injEq] at hstep
    subst hstep
    simp [Ban]

theorem Start_running (v6 : Bool) (s : NTCPServer) :
    (Start v6 s).1.m_IsRunning = true := by
  unfold Start
  cases h : s.m_IsRunning <;> cases v6 <;> simp [h]

theorem Stop_stopped (s : NTCPServer) :
    (Stop s).1.m_IsRunning = false ∧ (Stop s).1.m_NTCPSessions = (fun _ => none)
      ∧ (Stop s).1.m_BanList = s.m_BanList
      ∧ (Stop s).1.allocated = s.allocated := by
  unfold Stop
  cases h : s.m_IsRunning <;> simp [h]

theorem step_preserves_stoppedHasNoAcceptors (op : Op) (s : NTCPServer)
    (r : NTCPServer × List Event) (hstep : step op s = some r)
    (hinv : StoppedHasNoAcceptors s) : StoppedHasNoAcceptors r.1 := by
  by_cases hplain : op.isPlain = true
  · have hf := step_plain_frame op s r hstep hplain
    intro hr
    rw [hf.2.1, hf.2.2.1]
    exact hinv (by rw [← hf.1]; exact hr)
  · cases op with
    | start v6 =>
      simp only [step, Option.some.injEq] at hstep
      subst hstep
      intro hr
      rw [Start_running] at hr
      exact absurd hr (by decide)
    | stop =>
      simp only [step, Option.some.injEq] at hstep
      subst hstep
      intro _
      unfold Stop
      cases h : s.m_IsRunning
      · simpa [h] using hinv h
      · simp [h]
    | acceptDone v6 conn ecode =>
      simp only [step] at hstep
      intro hr
      have hrun : s.m_IsRunning = false := by
        rw [← (retireAccept_frame v6 conn.ptr s).2.2.1,
          ← (handleAcceptOf_frame v6 conn ecode _ r hstep).2.2]
        exact hr
      have hnone := hinv hrun
      have hret : retireAccept v6 conn.ptr s = s :=
        retireAccept_of_none v6 conn.ptr s (by
          cases v6 <;> simp [acceptorOf, hnone.1, hnone.2])
      rw [hret] at hstep
      by_cases ha : ecode = .operation_aborted
      · subst ha
        cases v6 <;>
          simp only [handleAcceptOf, Bool.false_eq_true, if_false, if_true,
            HandleAccept_aborted, HandleAcceptV6_aborted,
            Option.some.injEq] at hstep <;>
          (subst hstep; exact hnone)
      · cases v6
        · simp [handleAcceptOf, HandleAccept, ha, hnone.1] at hstep
        · simp [handleAcceptOf, HandleAcceptV6, ha, hnone.2] at hstep
    | acceptHandshakeDone v6 conn ec rec ep now => simp [Op.isPlain] at hplain
    | connect a p conn => simp [Op.isPlain] at hplain
    | connectDone conn ecode remote l1 l2 => simp [Op.isPlain] at hplain
    | connectHandshakeDone conn ec => simp [Op.isPlain] at hplain
    | work w rec => simp [Op.isPlain] at hplain
    | addSession x rec => simp [Op.isPlain] at hplain
    | removeSession x => simp [Op.isPlain] at hplain
    | findSession i => simp [Op.isPlain] at hplain
    | ban d x now => simp [Op.isPlain] at hplain

theorem run_preserves_stoppedHasNoAcceptors (ops : List Op) :
    ∀ s s' : NTCPServer, run ops s = some s' → StoppedHasNoAcceptors s →
      StoppedHasNoAcceptors s' := by
  induction ops with
  | nil =>
    intro s s' hrun hinv
    simp only [run, Option.some.injEq] at hrun
    subst hrun
    exact hinv
  | cons op ops ih =>
    intro s s' hrun hinv
    simp only [run] at hrun
    cases hstep : step op s with
    | none => simp [hstep] at hrun
    | some r =>
      simp only [hstep] at hrun
      exact ih r.1 s' hrun
        (step_preserves_stoppedHasNoAcceptors op s r hstep hinv)

theorem reachable_stoppedHasNoAcceptors (s : NTCPServer) (h : Reachable s) :
    StoppedHasNoAcceptors s := by
  obtain ⟨ops, hops⟩ := h
  exact run_preserves_stoppedHasNoAcceptors ops NTCPServer.new s hops
    (fun _ => ⟨rfl, rfl⟩)

/-- Claim C1 as the code has it: `RemoveNTCPSession(S)` with a non-null `S`
of peer identity `P` erases the mapping for `P` whichever session is mapped
there, so afterwards `find(P)` is not-found even when `P` was mapped to a
different session `S2`; every other identity keeps its mapping; with a null
pointer the call changes nothing. -/
theorem C1_remove_erases_by_identity (s : NTCPServer) (S : NTCPSession)
    (Q : IdentHash) :
    (FindNTCPSession Q (RemoveNTCPSession (some S) s).1).1
        = (if Q = S.identHash then none else (FindNTCPSession Q s).1)
      ∧ (RemoveNTCPSession none s).1 = s := by
  refine ⟨?_, rfl⟩
  simp [FindNTCPSession, RemoveNTCPSession, mapErase]

/-- Claim C1 fails as stated: after `add(S1)`, `add(S2)` under the same
identity 7, `find(7)` is `S2`, the session `S1` is not the occupant, and yet
`remove(S1)` changes the registry: `find(7)` is not-found afterwards instead
of `S2`. -/
theorem C1_remove_other_occupant_counterexample :
    sampleS1 ≠ sampleS2
      ∧ sampleS1.identHash = sampleS2.identHash
      ∧ (FindNTCPSession 7 sampleRegistry).1 = some sampleS2
      ∧ (FindNTCPSession 7
          (RemoveNTCPSession (some sampleS1) sampleRegistry).1).1 = none
      ∧ (FindNTCPSession 7
          (RemoveNTCPSession (some sampleS1) sampleRegistry).1).1
            ≠ some sampleS2 := by
  decide

/-- Claim C3: in both accept handlers, when the handshake succeeded, the
remote endpoint resolved to address `A` and the ban list maps `A` to an
expiry later than the clock reading `now`, the completion calls `ServerLogin`
on no session, logs that `A` is banned for `expiry - now` more seconds, and
leaves the ban list (so `A` keeps the same expiry) and the registry as they
were.  The expiry is a `std::uint32_t`. -/
theorem C3_active_ban_blocks_login (conn : NTCPSession) (ep : Endpoint)
    (now expiry : Nat) (s : NTCPServer)
    (hentry : s.m_BanList ep.address = some expiry) (hlt : now < expiry)
    (h32 : expiry < 4294967296) :
    ∀ h ∈ [HandleAcceptHandshake, HandleAcceptV6Handshake],
      (h conn .success .success ep now s).2.filter Event.isServerLogin = []
        ∧ Event.log .debug (.bannedFor ep.address (expiry - now))
            ∈ (h conn .success .success ep now s).2
        ∧ (h conn .success .success ep now s).1.m_BanList ep.address
            = some expiry
        ∧ (h conn .success .success ep now s).1.m_BanList = s.m_BanList
        ∧ (h conn .success .success ep now s).1.m_NTCPSessions
            = s.m_NTCPSessions :=
  acceptHandshake_active_ban conn ep now expiry s hentry hlt h32

/-- Instance of C3: address banned until 1600, a handshake completes at 1500
in the IPv6 handler. -/
theorem C3_active_ban_blocks_login_witness :
    (HandleAcceptV6Handshake sampleS2 .success .success sampleEp 1500
        sampleBanned).2.filter Event.isServerLogin = []
      ∧ Event.log .debug (.bannedFor sampleEp.address (1600 - 1500))
          ∈ (HandleAcceptV6Handshake sampleS2 .success .success sampleEp 1500
              sampleBanned).2
      ∧ (HandleAcceptV6Handshake sampleS2 .success .success sampleEp 1500
          sampleBanned).1.m_BanList sampleEp.address = some 1600
      ∧ (HandleAcceptV6Handshake sampleS2 .success .success sampleEp 1500
          sampleBanned).1.m_BanList = sampleBanned.m_BanList
      ∧ (HandleAcceptV6Handshake sampleS2 .success .success sampleEp 1500
          sampleBanned).1.m_NTCPSessions = sampleBanned.m_NTCPSessions :=
  C3_active_ban_blocks_login sampleS2 sampleEp 1500 1600 sampleBanned
    (by decide) (by decide) (by decide) HandleAcceptV6Handshake (by simp)

/-- Claim C4: in both accept handlers, when the handshake succeeded and the
remote endpoint resolved to address `A`: if the ban list maps `A` to an
expiry not later than the clock reading `now`, the completion calls
`ServerLogin` exactly once, on this session, `A` has no entry afterwards and
every other address keeps its entry; if the ban list has no entry for `A`,
`ServerLogin` is called on this session and the ban list is unchanged.  The
clock reading is a `std::uint32_t`. -/
theorem C4_expired_ban_evicted_and_login (conn : NTCPSession) (ep : Endpoint)
    (now : Nat) (s : NTCPServer) (hnow : now < 4294967296) :
    ∀ h ∈ [HandleAcceptHandshake, HandleAcceptV6Handshake],
      (∀ expiry, s.m_BanList ep.address = some expiry → expiry ≤ now →
        (h conn .success .success ep now s).2.filter Event.isServerLogin
            = [Event.serverLogin conn.ptr]
          ∧ (h conn .success .success ep now s).1.m_BanList ep.address = none
          ∧ ∀ b, b ≠ ep.address →
              (h conn .success .success ep now s).1.m_BanList b
                = s.m_BanList b)
      ∧ (s.m_BanList ep.address = none →
          (h conn .success .success ep now s).2.filter Event.isServerLogin
              = [Event.serverLogin conn.ptr]
            ∧ (h conn .success .success ep now s).1.m_BanList
                = s.m_BanList) :=
  acceptHandshake_expired_or_absent conn ep now s hnow

/-- Instance of C4: address banned until 1600 and a handshake at 1700 in the
IPv4 handler, where the entry of another address, banned until 2600, stays;
no entry at all in the IPv6 handler. -/
theorem C4_expired_ban_evicted_and_login_witness :
    ((HandleAcceptHandshake sampleS2 .success .success sampleEp 1700
          (Ban 600 sampleS2 2000 sampleBanned).1).2.filter Event.isServerLogin
        = [Event.serverLogin sampleS2.ptr]
      ∧ (HandleAcceptHandshake sampleS2 .success .success sampleEp 1700
          (Ban 600 sampleS2 2000 sampleBanned).1).1.m_BanList sampleEp.address
          = none
      ∧ (HandleAcceptHandshake sampleS2 .success .success sampleEp 1700
            (Ban 600 sampleS2 2000 sampleBanned).1).1.m_BanList
            sampleS2.remoteEndpoint.address
          = (Ban 600 sampleS2 2000 sampleBanned).1.m_BanList
              sampleS2.remoteEndpoint.address)
      ∧ ((HandleAcceptV6Handshake sampleS2 .success .success sampleEp 1700
            NTCPServer.new).2.filter Event.isServerLogin
          = [Event.serverLogin sampleS2.ptr]
        ∧ (HandleAcceptV6Handshake sampleS2 .success .success sampleEp 1700
            NTCPServer.new).1.m_BanList = NTCPServer.new.m_BanList) :=
  ⟨⟨((C4_expired_ban_evicted_and_login sampleS2 sampleEp 1700
        (Ban 600 sampleS2 2000 sampleBanned).1 (by decide)
        HandleAcceptHandshake (by simp)).1 1600 (by decide) (by decide)).1,
      ((C4_expired_ban_evicted_and_login sampleS2 sampleEp 1700
        (Ban 600 sampleS2 2000 sampleBanned).1 (by decide)
        HandleAcceptHandshake (by simp)).1 1600 (by decide) (by decide)).2.1,
      ((C4_expired_ban_evicted_and_login sampleS2 sampleEp 1700
        (Ban 600 sampleS2 2000 sampleBanned).1 (by decide)
        HandleAcceptHandshake (by simp)).1 1600 (by decide)
        (by decide)).2.2 sampleS2.remoteEndpoint.address (by decide)⟩,
    (C4_expired_ban_evicted_and_login sampleS2 sampleEp 1700 NTCPServer.new
      (by decide) HandleAcceptV6Handshake (by simp)).2 rfl⟩

/-- Claim C5 within the range of the type: when `t + D` still fits a
`std::uint32_t`, `Ban(session)` at clock reading `t` with ban duration `D`
stores expiry `t + D` under the session's remote address `A`, replacing any
entry `A` had and leaving the entry of every other address as it was; in the
state it leaves, an inbound handshake from `A` completing at a reading `t'`
with `t <= t' < t + D` reaches no `ServerLogin`, logs `t + D - t'` seconds
remaining and keeps the entry, and one completing at a 32-bit reading
`t' >= t + D` calls `ServerLogin` on the session and leaves `A` without
entry. -/
theorem C5_ban_expiry_in_range (D t : Nat) (session conn : NTCPSession)
    (port : Nat) (s : NTCPServer) (hfit : t + D < 4294967296) :
    (Ban D session t s).1.m_BanList session.remoteEndpoint.address
        = some (t + D)
      ∧ (∀ b, b ≠ session.remoteEndpoint.address →
          (Ban D session t s).1.m_BanList b = s.m_BanList b)
      ∧ ∀ h ∈ [HandleAcceptHandshake, HandleAcceptV6Handshake], ∀ t',
          (t ≤ t' → t' < t + D →
            (h conn .success .success ⟨session.remoteEndpoint.address, port⟩
                t' (Ban D session t s).1).2.filter Event.isServerLogin = []
              ∧ Event.log .debug
                  (.bannedFor session.remoteEndpoint.address (t + D - t'))
                  ∈ (h conn .success .success
                      ⟨session.remoteEndpoint.address, port⟩ t'
                      (Ban D session t s).1).2
              ∧ (h conn .success .success
                    ⟨session.remoteEndpoint.address, port⟩ t'
                    (Ban D session t s).1).1.m_BanList
                  session.remoteEndpoint.address = some (t + D))
          ∧ (t + D ≤ t' → t' < 4294967296 →
            (h conn .success .success ⟨session.remoteEndpoint.address, port⟩
                t' (Ban D session t s).1).2.filter Event.isServerLogin
                = [Event.serverLogin conn.ptr]
              ∧ (h conn .success .success
                    ⟨session.remoteEndpoint.address, port⟩ t'
                    (Ban D session t s).1).1.m_BanList
                  session.remoteEndpoint.address = none) := by
  have hstored : (Ban D session t s).1.m_BanList session.remoteEndpoint.address
      = some (t + D) := by
    simp only [Ban, mapInsert, if_true]
    rw [u32_of_lt t (by omega), u32_of_lt (t + D) hfit]
  refine ⟨hstored, ?_, ?_⟩
  · intro b hb
    simp [Ban, mapInsert, hb]
  · intro h hh t'
    refine ⟨fun h1 h2 => ?_, fun h1 h2 => ?_⟩
    · have := acceptHandshake_active_ban conn ⟨session.remoteEndpoint.address, port⟩
        t' (t + D) (Ban D session t s).1 hstored h2 hfit h hh
      exact ⟨this.1, this.2.1, this.2.2.1⟩
    · have := (acceptHandshake_expired_or_absent conn
        ⟨session.remoteEndpoint.address, port⟩ t' (Ban D session t s).1 h2
        h hh).1 (t + D) hstored h1
      exact ⟨this.1, this.2.1⟩

/-- Instance of C5, the scenario of the specification: duration 600, ban at
1000; a handshake at 1500 is turned away with 100 seconds remaining, one at
1700 is let in and the entry is gone. -/
theorem C5_ban_expiry_in_range_witness :
    sampleBanned.m_BanList sampleS1.remoteEndpoint.address = some 1600
      ∧ ((HandleAcceptHandshake sampleS2 .success .success
            ⟨sampleS1.remoteEndpoint.address, 40000⟩ 1500
            sampleBanned).2.filter Event.isServerLogin = []
        ∧ Event.log .debug
            (.bannedFor sampleS1.remoteEndpoint.address (1000 + 600 - 1500))
            ∈ (HandleAcceptHandshake sampleS2 .success .success
                ⟨sampleS1.remoteEndpoint.address, 40000⟩ 1500 sampleBanned).2
        ∧ (HandleAcceptHandshake sampleS2 .success .success
              ⟨sampleS1.remoteEndpoint.address, 40000⟩ 1500
              sampleBanned).1.m_BanList sampleS1.remoteEndpoint.address
            = some (1000 + 600))
      ∧ ((HandleAcceptHandshake sampleS2 .success .success
            ⟨sampleS1.remoteEndpoint.address, 40000⟩ 1700
            sampleBanned).2.filter Event.isServerLogin
          = [Event.serverLogin sampleS2.ptr]
        ∧ (HandleAcceptHandshake sampleS2 .success .success
              ⟨sampleS1.remoteEndpoint.address, 40000⟩ 1700
              sampleBanned).1.m_BanList sampleS1.remoteEndpoint.address
            = none) :=
  ⟨(C5_ban_expiry_in_range 600 1000 sampleS1 sampleS2 40000 NTCPServer.new
      (by decide)).1,
    ((C5_ban_expiry_in_range 600 1000 sampleS1 sampleS2 40000 NTCPServer.new
      (by decide)).2.2 HandleAcceptHandshake (by simp) 1500).1 (by decide)
      (by decide),
    ((C5_ban_expiry_in_range 600 1000 sampleS1 sampleS2 40000 NTCPServer.new
      (by decide)).2.2 HandleAcceptHandshake (by simp) 1700).2 (by decide)
      (by decide)⟩

/-- Claim C5 fails as stated at the top of the 32-bit range: with ban
duration 600 and clock reading `t = 4294967295`, `Ban` stores expiry 599 and
not `t + 600`, and an inbound handshake from the banned address at the same
reading `t' = t`, which lies in `[t, t + 600)`, is not turned away: it calls
`ServerLogin` and the entry is erased. -/
theorem C5_ban_expiry_wraps_counterexample :
    (Ban 600 sampleS1 4294967295 NTCPServer.new).1.m_BanList
        sampleS1.remoteEndpoint.address = some 599
      ∧ (Ban 600 sampleS1 4294967295 NTCPServer.new).1.m_BanList
          sampleS1.remoteEndpoint.address ≠ some (4294967295 + 600)
      ∧ (HandleAcceptHandshake sampleS2 .success .success
            ⟨sampleS1.remoteEndpoint.address, 40000⟩ 4294967295
            (Ban 600 sampleS1 4294967295 NTCPServer.new).1).2.filter
          Event.isServerLogin = [Event.serverLogin sampleS2.ptr]
      ∧ (HandleAcceptHandshake sampleS2 .success .success
            ⟨sampleS1.remoteEndpoint.address, 40000⟩ 4294967295
            (Ban 600 sampleS1 4294967295 NTCPServer.new).1).1.m_BanList
          sampleS1.remoteEndpoint.address = none := by
  decide

/-- Claim C10: in both accept handlers, when the handshake succeeded and
resolving the remote endpoint failed, the completion only writes an error to
the log: it calls neither `ServerLogin` nor `Terminate` and leaves the ban
list and the registry as they were; when the handshake itself failed, it
calls `Terminate` exactly once, on this session, and never `ServerLogin`. -/
theorem C10_endpoint_failure_drops_session (conn : NTCPSession)
    (ec rec : ErrorCode) (ep : Endpoint) (now : Nat) (s : NTCPServer) :
    ∀ h ∈ [HandleAcceptHandshake, HandleAcceptV6Handshake],
      (rec ≠ .success →
        (h conn .success rec ep now s).2
            = [Event.log .error (.remoteEndpointFailed rec)]
          ∧ (h conn .success rec ep now s).2.filter Event.isServerLogin = []
          ∧ (h conn .success rec ep now s).2.filter Event.isTerminate = []
          ∧ (h conn .success rec ep now s).1.m_BanList = s.m_BanList
          ∧ (h conn .success rec ep now s).1.m_NTCPSessions
              = s.m_NTCPSessions)
      ∧ (ec ≠ .success →
          (h conn ec rec ep now s).2.filter Event.isTerminate
              = [Event.terminate conn.ptr]
            ∧ (h conn ec rec ep now s).2.filter Event.isServerLogin = []) := by
  intro h hh
  simp only [List.mem_cons, List.mem_singleton, List.not_mem_nil,
    or_false] at hh
  rcases hh with rfl | rfl
  · exact ⟨fun hrec => by
        simp [HandleAcceptHandshake, hrec, Event.isServerLogin,
          Event.isTerminate],
      fun hec => by
        simp [HandleAcceptHandshake, hec, Event.isServerLogin,
          Event.isTerminate]⟩
  · exact ⟨fun hrec => by
        simp [HandleAcceptV6Handshake, hrec, Event.isServerLogin,
          Event.isTerminate],
      fun hec => by
        simp [HandleAcceptV6Handshake, hec, Event.isServerLogin,
          Event.isTerminate]⟩

/-- Instance of C10: endpoint resolution fails with code 107 in the IPv4
handler; the handshake fails with code 1 in the IPv6 handler. -/
theorem C10_endpoint_failure_drops_session_witness :
    ((HandleAcceptHandshake sampleS2 .success (.other 107) sampleEp 1500
          sampleBanned).2 = [Event.log .error (.remoteEndpointFailed (.other 107))]
      ∧ (HandleAcceptHandshake sampleS2 .success (.other 107) sampleEp 1500
          sampleBanned).2.filter Event.isServerLogin = []
      ∧ (HandleAcceptHandshake sampleS2 .success (.other 107) sampleEp 1500
          sampleBanned).2.filter Event.isTerminate = []
      ∧ (HandleAcceptHandshake sampleS2 .success (.other 107) sampleEp 1500
          sampleBanned).1.m_BanList = sampleBanned.m_BanList
      ∧ (HandleAcceptHandshake sampleS2 .success (.other 107) sampleEp 1500
          sampleBanned).1.m_NTCPSessions = sampleBanned.m_NTCPSessions)
      ∧ ((HandleAcceptV6Handshake sampleS2 (.other 1) .success sampleEp 1500
            sampleBanned).2.filter Event.isTerminate
          = [Event.terminate sampleS2.ptr]
        ∧ (HandleAcceptV6Handshake sampleS2 (.other 1) .success sampleEp 1500
            sampleBanned).2.filter Event.isServerLogin = []) :=
  ⟨(C10_endpoint_failure_drops_session sampleS2 .success (.other 107) sampleEp
      1500 sampleBanned HandleAcceptHandshake (by simp)).1 (by decide),
    (C10_endpoint_failure_drops_session sampleS2 (.other 1) .success sampleEp
      1500 sampleBanned HandleAcceptV6Handshake (by simp)).2 (by decide)⟩

/-! ## Outbound connections -/

/-- Claim C7 as the code has it: when a connect completion reports a failure,
`HandleConnect` tells the routing directory that the session's peer identity
is unreachable exactly once if the error is anything but
`operation_aborted`, and not at all if it is `operation_aborted`; in both
cases it calls `Terminate` on the session exactly once, starts no handshake
and no client login, posts no work and leaves the server state, the registry
included, as it was. -/
theorem C7_connect_failure (conn : NTCPSession) (ecode : ErrorCode)
    (remote local1 local2 : EndpointQuery) (s : NTCPServer)
    (hfail : ecode ≠ .success) :
    (HandleConnect conn ecode remote local1 local2 s).2.filter
        Event.isSetUnreachable
        = (if ecode = .operation_aborted then []
            else [Event.setUnreachable conn.identHash true])
      ∧ (HandleConnect conn ecode remote local1 local2 s).2.filter
          Event.isTerminate = [Event.terminate conn.ptr]
      ∧ (HandleConnect conn ecode remote local1 local2 s).2.filter
          Event.isHandshake = []
      ∧ (HandleConnect conn ecode remote local1 local2 s).2.filter
          Event.isStartClientSession = []
      ∧ (HandleConnect conn ecode remote local1 local2 s).2.filter
          Event.isPost = []
      ∧ (HandleConnect conn ecode remote local1 local2 s).1 = s := by
  by_cases ha : ecode = .operation_aborted
  · subst ha
    simp [HandleConnect, Event.isSetUnreachable, Event.isTerminate,
      Event.isHandshake, Event.isStartClientSession, Event.isPost]
  · simp [HandleConnect, hfail, ha, Event.isSetUnreachable, Event.isTerminate,
      Event.isHandshake, Event.isStartClientSession, Event.isPost]

/-- Instance of C7: connection refused (code 111). -/
theorem C7_connect_failure_witness :
    (HandleConnect sampleS1 (.other 111) sampleQuery sampleQuery sampleQuery
        sampleRegistry).2.filter Event.isSetUnreachable
        = (if ErrorCode.other 111 = .operation_aborted then []
            else [Event.setUnreachable sampleS1.identHash true])
      ∧ (HandleConnect sampleS1 (.other 111) sampleQuery sampleQuery
          sampleQuery sampleRegistry).2.filter Event.isTerminate
          = [Event.terminate sampleS1.ptr]
      ∧ (HandleConnect sampleS1 (.other 111) sampleQuery sampleQuery
          sampleQuery sampleRegistry).2.filter Event.isHandshake = []
      ∧ (HandleConnect sampleS1 (.other 111) sampleQuery sampleQuery
          sampleQuery sampleRegistry).2.filter Event.isStartClientSession = []
      ∧ (HandleConnect sampleS1 (.other 111) sampleQuery sampleQuery
          sampleQuery sampleRegistry).2.filter Event.isPost = []
      ∧ (HandleConnect sampleS1 (.other 111) sampleQuery sampleQuery
          sampleQuery sampleRegistry).1 = sampleRegistry :=
  C7_connect_failure sampleS1 (.other 111) sampleQuery sampleQuery sampleQuery
    sampleRegistry (by decide)

/-- Claim C7 fails as stated: `operation_aborted` is a non-success error
code, and for it `HandleConnect` sends no unreachable signal at all (it still
terminates the session). -/
theorem C7_aborted_connect_counterexample :
    ErrorCode.operation_aborted ≠ ErrorCode.success
      ∧ (HandleConnect sampleS1 .operation_aborted sampleQuery sampleQuery
          sampleQuery NTCPServer.new).2.filter Event.isSetUnreachable = []
      ∧ (HandleConnect sampleS1 .operation_aborted sampleQuery sampleQuery
          sampleQuery NTCPServer.new).2.filter Event.isTerminate
          = [Event.terminate sampleS1.ptr] := by
  decide

/-- Claim C8: in every state the server can be in, running or not, `Stop()`
leaves the registry empty, the running flag false and both acceptors
destroyed, does not change the ban list and calls `Terminate` on no session;
`Start()` does not change the ban list either, so the ban list after
`Stop()` followed by `Start()` is the one before; and a second `Stop()`
leaves the state the first one produced. -/
theorem C8_stop_clears_registry_keeps_bans (s : NTCPServer)
    (supportsV6 : Bool) (Q : IdentHash) (hs : Reachable s) :
    (FindNTCPSession Q (Stop s).1).1 = none
      ∧ (Stop s).1.m_NTCPSessions = (fun _ => none)
      ∧ (Stop s).1.m_IsRunning = false
      ∧ (Stop s).1.m_NTCPAcceptor = none
      ∧ (Stop s).1.m_NTCPV6Acceptor = none
      ∧ (Stop s).1.m_BanList = s.m_BanList
      ∧ (Start supportsV6 s).1.m_BanList = s.m_BanList
      ∧ (Start supportsV6 (Stop s).1).1.m_BanList = s.m_BanList
      ∧ (Stop (Stop s).1).1 = (Stop s).1
      ∧ (Stop s).2.filter Event.isTerminate = [] := by
  have hinv := reachable_stoppedHasNoAcceptors s hs
  have hstart : ∀ t : NTCPServer, (Start supportsV6 t).1.m_BanList
      = t.m_BanList := by
    intro t
    unfold Start
    cases t.m_IsRunning <;> cases supportsV6 <;> simp
  have hstop := Stop_stopped s
  refine ⟨?_, hstop.2.1, hstop.1, ?_, ?_, hstop.2.2.1, hstart s, ?_, ?_, ?_⟩
  · simp [FindNTCPSession, hstop.2.1]
  · unfold Stop
    cases h : s.m_IsRunning
    · simpa [h] using (hinv h).1
    · simp [h]
  · unfold Stop
    cases h : s.m_IsRunning
    · simpa [h] using (hinv h).2
    · simp [h]
  · rw [hstart, hstop.2.2.1]
  · unfold Stop
    cases h : s.m_IsRunning <;> simp [h]
  · unfold Stop
    cases h : s.m_IsRunning <;> simp [h, Event.isTerminate]

/-- Instance of C8: the server was started with IPv6, a session was
registered and its address banned until 1600. -/
theorem C8_stop_clears_registry_keeps_bans_witness :
    (FindNTCPSession 7 (Stop sampleRunning).1).1 = none
      ∧ (Stop sampleRunning).1.m_NTCPSessions = (fun _ => none)
      ∧ (Stop sampleRunning).1.m_IsRunning = false
      ∧ (Stop sampleRunning).1.m_NTCPAcceptor = none
      ∧ (Stop sampleRunning).1.m_NTCPV6Acceptor = none
      ∧ (Stop sampleRunning).1.m_BanList = sampleRunning.m_BanList
      ∧ (Start true sampleRunning).1.m_BanList = sampleRunning.m_BanList
      ∧ (Start true (Stop sampleRunning).1).1.m_BanList
          = sampleRunning.m_BanList
      ∧ (Stop (Stop sampleRunning).1).1 = (Stop sampleRunning).1
      ∧ (Stop sampleRunning).2.filter Event.isTerminate = [] :=
  C8_stop_clears_registry_keeps_bans sampleRunning true 7
    ⟨[Op.start true, Op.addSession (some sampleS1) .success,
        Op.ban 600 sampleS1 1000],
      rfl⟩

end Kovri
